import Mathlib

/-!
Verification of the requisition / shipment workflow logic of the MedAlatau
admin console.  The definitions below are shallow embeddings of the
TypeScript source:

* draft assembly (`handleAddItem`, `handleRemoveItem`,
  `handleCreateRequisition`) from the branch requisitions page;
* the requisition record and its status vocabulary from the admin and
  branch requisition pages;
* the quantity input (`QtyInput`) and the derived shipment view
  (`viewShipments`) from the admin shipments page;
* the requisition lifecycle state machine and availability computation,
  which live behind the REST boundary and are modelled from the design
  specification (each such definition is marked in its doc comment).
-/

/-- Item kind selector, source union type `'medicine' | 'medical_device'`. -/
inductive ItemType
  | medicine
  | medical_device
deriving DecidableEq, Repr

instance : BEq ItemType := instBEqOfDecidableEq

/-- Draft line, source type `DraftItem`. -/
structure DraftItem where
  type : ItemType
  id : String
  name : String
  quantity : Int
deriving DecidableEq, Repr

/-- Catalog entry as used by the branch page (an element of
`availableItems`, i.e. `medicines` or `devices`). -/
structure CatalogItem where
  id : String
  name : String
  quantity : Int
deriving DecidableEq, Repr

/-- The `(type, itemId)` identity of a draft line. -/
def draftKey (it : DraftItem) : ItemType × String :=
  (it.type, it.id)

/-- The duplicate test used by `handleAddItem`:
`it.id === selectedItemId && it.type === itemType`. -/
def keyMatches (itemType : ItemType) (selectedItemId : String) (it : DraftItem) : Bool :=
  it.id == selectedItemId && it.type == itemType

/-- The `setDraftItems` updater inside `handleAddItem`
(src/unnamed/part_000:197-224): find the first draft line with the same
`(id, type)`; if present, replace it in place with the quantity summed,
otherwise append a fresh line at the end. -/
def handleAddItemUpdate (itemType : ItemType) (selectedItemId : String)
    (sourceName : String) (quantity : Int) (prev : List DraftItem) : List DraftItem :=
  match prev.findIdx? (keyMatches itemType selectedItemId) with
  | some existingIndex =>
      let existing := (prev[existingIndex]?).getD ⟨itemType, selectedItemId, sourceName, 0⟩
      prev.set existingIndex { existing with quantity := existing.quantity + quantity }
  | none =>
      prev ++ [⟨itemType, selectedItemId, sourceName, quantity⟩]

/-- Structural recursion computing the same list as `handleAddItemUpdate`;
used only to organise the proofs. -/
def addDraftLine (itemType : ItemType) (selectedItemId : String)
    (sourceName : String) (quantity : Int) : List DraftItem → List DraftItem
  | [] => [⟨itemType, selectedItemId, sourceName, quantity⟩]
  | it :: rest =>
      if keyMatches itemType selectedItemId it then
        { it with quantity := it.quantity + quantity } :: rest
      else
        it :: addDraftLine itemType selectedItemId sourceName quantity rest

/-- Validation failures surfaced as destructive toasts in the source. -/
inductive ValidationError
  | noItemSelected
  | invalidQuantity
  | itemNotFound
  | emptyDraft
deriving DecidableEq, Repr

/-- Full `handleAddItem` (src/unnamed/part_000:168-224): the three guard
clauses (`!selectedItemId`, `quantity <= 0`, `find` miss on the catalog of
the selected type) each return early with a toast and leave the draft
untouched; on success the draft is updated by `handleAddItemUpdate`. -/
def handleAddItem (itemType : ItemType) (selectedItemId : String) (quantity : Int)
    (availableItems : List CatalogItem) (draftItems : List DraftItem) :
    Except ValidationError (List DraftItem) :=
  if selectedItemId = "" then
    .error .noItemSelected
  else if quantity ≤ 0 then
    .error .invalidQuantity
  else
    match availableItems.find? (fun item => item.id == selectedItemId) with
    | none => .error .itemNotFound
    | some source =>
        .ok (handleAddItemUpdate itemType selectedItemId source.name quantity draftItems)

/-- A failed handler leaves the component state as it was: the draft after
the call is the returned list on success and the previous list on error. -/
def draftAfter (prev : List DraftItem) (res : Except ValidationError (List DraftItem)) :
    List DraftItem :=
  match res with
  | .ok d => d
  | .error _ => prev

/-- `handleRemoveItem` (src/unnamed/part_000:226-228):
`prev.filter(item => !(item.id === id && item.type === type))`. -/
def handleRemoveItem (id : String) (type : ItemType) (prev : List DraftItem) :
    List DraftItem :=
  prev.filter (fun item => !(item.id == id && item.type == type))

/-- One element of the submission payload built by `handleCreateRequisition`. -/
structure SubmissionItem where
  type : ItemType
  id : String
  quantity : Int
deriving DecidableEq, Repr

/-- The payload sent to `createBranchRequisition`. -/
structure RequisitionPayload where
  comment : Option String
  items : List SubmissionItem
deriving DecidableEq, Repr

/-- JavaScript `String.prototype.trim`: strip leading and trailing
whitespace. -/
def jsTrim (s : String) : String :=
  ⟨((s.toList.dropWhile Char.isWhitespace).reverse.dropWhile Char.isWhitespace).reverse⟩

/-- `handleCreateRequisition` (src/unnamed/part_000:230-274): an empty draft
is rejected with a toast; otherwise the payload carries
`comment.trim() ? comment.trim() : undefined` and the draft lines mapped to
`{type, id, quantity}`. -/
def handleCreateRequisition (comment : String) (draftItems : List DraftItem) :
    Except ValidationError RequisitionPayload :=
  if draftItems.length = 0 then
    .error .emptyDraft
  else
    .ok { comment := if jsTrim comment = "" then none else some (jsTrim comment)
          items := draftItems.map (fun it => ⟨it.type, it.id, it.quantity⟩) }

/-- Requisition status union in the source, identical in
src/src/pages/admin/Requisitions.tsx:42 and src/unnamed/part_000:50:
`'pending' | 'approved' | 'rejected'`. -/
inductive RequisitionStatus
  | pending
  | approved
  | rejected
deriving DecidableEq, Repr

instance : BEq RequisitionStatus := instBEqOfDecidableEq

/-- The wire string of each source status value. -/
def statusToString : RequisitionStatus → String
  | .pending => "pending"
  | .approved => "approved"
  | .rejected => "rejected"

/-- All inhabitants of the source status union. -/
def allRequisitionStatuses : List RequisitionStatus :=
  [.pending, .approved, .rejected]

/-- Modelled from the spec: the status vocabulary claimed in §3 of the
specification, `pending | approved | accepted | rejected`. -/
def specStatusStrings : List String :=
  ["pending", "approved", "accepted", "rejected"]

/-- One line of a stored requisition, source type `RequisitionItem`. -/
structure RequisitionItem where
  type : ItemType
  id : String
  name : String
  quantity : Int
deriving DecidableEq, Repr

/-- Stored requisition record, source type `Requisition`
(src/src/pages/admin/Requisitions.tsx:38-48). -/
structure Requisition where
  id : String
  branch_id : String
  employee_id : Option String
  status : RequisitionStatus
  comment : Option String
  processed_by : Option String
  processed_at : Option String
  created_at : String
  items : List RequisitionItem
deriving DecidableEq, Repr

/-- The guard on the approve / reject actions in the admin list and the
detail dialog (src/src/pages/admin/Requisitions.tsx:369 and 463): the
buttons are rendered only when `requisition.status === 'pending'`. -/
def showsPendingActions (r : Requisition) : Bool :=
  r.status == .pending

/-! ## QtyInput (src/src/pages/admin/Shipments.tsx:21-53) -/

/-- The `onChange` handler of `QtyInput`: the typed value replaces the
field text only when it matches `/^\d*$/` (digits only, empty allowed). -/
def onQtyChange (v : String) (qtyText : String) : String :=
  if v.toList.all Char.isDigit then v else qtyText

/-- The longest leading run of decimal digits. -/
def leadingDigits : List Char → List Char
  | [] => []
  | c :: cs => if c.isDigit then c :: leadingDigits cs else []

/-- Numeric value of a digit string. -/
def digitsToInt (l : List Char) : Int :=
  l.foldl (fun acc c => acc * 10 + ((c.toNat : Int) - 48)) 0

/-- JavaScript `parseInt(s, 10)`: skip leading whitespace, read an optional
sign and then a maximal run of decimal digits; `none` models `NaN` (no
digits found). -/
def jsParseInt10 (s : String) : Option Int :=
  let cs := s.toList.dropWhile Char.isWhitespace
  match cs with
  | '-' :: rest =>
      if leadingDigits rest = [] then none else some (-(digitsToInt (leadingDigits rest)))
  | '+' :: rest =>
      if leadingDigits rest = [] then none else some (digitsToInt (leadingDigits rest))
  | _ =>
      if leadingDigits cs = [] then none else some (digitsToInt (leadingDigits cs))

/-- The `onBlur` handler of `QtyInput`: `parseInt(qtyText || '0', 10)`,
clamp non-numbers and values below `1` up to `1`, then apply
`Math.min(n, max)` when a finite `max` was supplied; the result is both
committed and written back into the field. -/
def onQtyBlur (qtyText : String) (maxStock : Option Int) : Int :=
  let s := if qtyText = "" then "0" else qtyText
  let n := match jsParseInt10 s with
    | none => 1
    | some m => if m < 1 then 1 else m
  match maxStock with
  | some mx => min n mx
  | none => n

/-! ## Shipment list view (src/src/pages/admin/Shipments.tsx:331-359) -/

/-- Shipment record as consumed by the admin shipments page.  The optional
fields mirror the dynamic lookups of `getDate`, `isAccepted` and
`isDeclined`; timestamps are modelled as the milliseconds value that
`new Date(x).getTime()` would return. -/
structure Shipment where
  id : String
  status : String
  accepted : Bool
  is_accepted : Bool
  declined : Bool
  rejected : Bool
  is_declined : Bool
  decline_reason : Option String
  rejection_reason : Option String
  date : Option Int
  created_at : Option Int
  createdAt : Option Int
  created : Option Int
deriving DecidableEq, Repr

/-- Truthiness of an optional string field (`!!t?.field`). -/
def truthyOptString : Option String → Bool
  | some s => !(s == "")
  | none => false

/-- `getDate`: `t?.date ?? t?.created_at ?? t?.createdAt ?? t?.created ?? 0`,
read as a timestamp. -/
def getTime (t : Shipment) : Int :=
  match t.date with
  | some v => v
  | none =>
      match t.created_at with
      | some v => v
      | none =>
          match t.createdAt with
          | some v => v
          | none => t.created.getD 0

/-- `isAccepted` predicate of the shipments page. -/
def isAccepted (t : Shipment) : Bool :=
  t.status == "accepted" || t.accepted || t.is_accepted

/-- `isDeclined` predicate of the shipments page. -/
def isDeclined (t : Shipment) : Bool :=
  t.status == "declined" || t.status == "rejected" || t.declined || t.rejected ||
    t.is_declined || truthyOptString t.decline_reason || truthyOptString t.rejection_reason

/-- Source union `type SortOrder = 'new' | 'old'`. -/
inductive SortOrder
  | new
  | old
deriving DecidableEq, Repr

/-- Source union `type StatusFilter = 'all' | 'accepted' | 'declined'`. -/
inductive StatusFilter
  | all
  | accepted
  | declined
deriving DecidableEq, Repr

/-- The comparator passed to `list.sort`: `sortOrder === 'new' ? db - da :
da - db`, rendered as the corresponding boolean order. -/
def shipLe (sortOrder : SortOrder) (a b : Shipment) : Bool :=
  match sortOrder with
  | .new => decide (getTime b ≤ getTime a)
  | .old => decide (getTime a ≤ getTime b)

/-- `viewShipments` memo: copy the fetched array, filter it by the selected
status predicate, and sort the copy by shipment date.  The copy
(`[...shipments]`) is what keeps the underlying state array unmutated; in
this embedding the argument list is returned untouched by construction. -/
def viewShipments (shipments : List Shipment) (sortOrder : SortOrder)
    (statusFilter : StatusFilter) : List Shipment :=
  let list := shipments
  let list := match statusFilter with
    | .accepted => list.filter isAccepted
    | .declined => list.filter isDeclined
    | .all => list
  list.mergeSort (shipLe sortOrder)

/-! ## Requisition lifecycle state machine (spec §4.2, §4.3)

The transitions themselves execute behind the REST boundary
(`updateAdminRequisitionStatus` and the shipment endpoints); only their
callers are in the repository, so the machine is modelled from the
specification. -/

/-- Modelled from the spec: the four-valued lifecycle status of §4.2
(the warehouse-fulfillment flow adds `accepted`). -/
inductive LifecycleStatus
  | pending
  | approved
  | accepted
  | rejected
deriving DecidableEq, Repr

/-- Modelled from the spec: one requisition line of the workflow engine
(`{ item_type, item_id, name, quantity }`). -/
structure WorkItem where
  item_type : ItemType
  item_id : String
  name : String
  quantity : Int
deriving DecidableEq, Repr

/-- Modelled from the spec: the requisition record owned by the workflow
engine (§3). -/
structure WRequisition where
  id : String
  branch_id : String
  status : LifecycleStatus
  items : List WorkItem
  comment : Option String
  reject_reason : Option String
  processed_by : Option String
  processed_at : Option Int
  shipment_id : Option String
deriving DecidableEq, Repr

/-- Modelled from the spec: the error taxonomy of §7. -/
inductive WorkflowError
  | validationError
  | invalidStateError
  | insufficientStockError
  | shipmentCreationError
deriving DecidableEq, Repr

/-- Modelled from the spec: an availability line of §4.3, with the derived
`shortage` stored alongside its inputs. -/
structure AvailabilityItem where
  item_type : ItemType
  item_id : String
  name : String
  requested_qty : Int
  available_qty : Int
  shortage : Int
deriving DecidableEq, Repr

/-- A catalog snapshot: on-hand quantity per `(item_type, item_id)`. -/
abbrev CatalogSnapshot : Type := List (ItemType × String × Int)

/-- Look up the on-hand quantity of an item; absent items count as `0`. -/
def lookupStock (snap : CatalogSnapshot) (t : ItemType) (i : String) : Int :=
  match snap.find? (fun e => e.1 == t && e.2.1 == i) with
  | some e => e.2.2
  | none => 0

/-- Modelled from the spec: one line of `computeAvailability` (§4.3),
`shortage = max(0, requested_qty - available_qty)`. -/
def availabilityLine (snap : CatalogSnapshot) (it : WorkItem) : AvailabilityItem :=
  { item_type := it.item_type
    item_id := it.item_id
    name := it.name
    requested_qty := it.quantity
    available_qty := lookupStock snap it.item_type it.item_id
    shortage := max 0 (it.quantity - lookupStock snap it.item_type it.item_id) }

/-- Modelled from the spec: `computeAvailability(requisition,
catalogSnapshot)` (§4.3), one entry per requisition item. -/
def computeAvailability (r : WRequisition) (snap : CatalogSnapshot) :
    List AvailabilityItem :=
  r.items.map (availabilityLine snap)

/-- Modelled from the spec: `shortage_total = sum(shortage over items)`. -/
def shortageTotal (l : List AvailabilityItem) : Int :=
  (l.map (fun x => x.shortage)).sum

/-- Modelled from the spec: `can_fulfill = (shortage_total == 0)`. -/
def canFulfill (l : List AvailabilityItem) : Bool :=
  shortageTotal l == 0

/-- Modelled from the spec: `approve(requisitionId, actorId)` (§4.2), valid
only from `pending`. -/
def approve (r : WRequisition) (actorId : String) (now : Int) :
    Except WorkflowError WRequisition :=
  if r.status = .pending then
    .ok { r with status := .approved, processed_by := some actorId, processed_at := some now }
  else
    .error .invalidStateError

/-- Modelled from the spec: `reject(requisitionId, actorId, reason?)`
(§4.2), valid only from `pending`. -/
def reject (r : WRequisition) (actorId : String) (reason : Option String) (now : Int) :
    Except WorkflowError WRequisition :=
  if r.status = .pending then
    .ok { r with
          status := .rejected
          reject_reason := reason
          processed_by := some actorId
          processed_at := some now }
  else
    .error .invalidStateError

/-- Modelled from the spec: `acceptAndShip` (§4.2).  The external Shipment
Service call is passed in as its outcome (`.ok shipmentId` or failure);
the state guard and the availability gate are checked first, and a failed
shipment call yields `shipmentCreationError` with no new record. -/
def acceptAndShip (r : WRequisition) (actorId : String) (snap : CatalogSnapshot)
    (shipResult : Except Unit String) (now : Int) :
    Except WorkflowError WRequisition :=
  if r.status ≠ .pending then
    .error .invalidStateError
  else if ¬ canFulfill (computeAvailability r snap) then
    .error .insufficientStockError
  else
    match shipResult with
    | .error _ => .error .shipmentCreationError
    | .ok sid =>
        .ok { r with
              status := .accepted
              shipment_id := some sid
              processed_by := some actorId
              processed_at := some now }

/-- The stored record after a transition attempt: the new record on
success, the untouched previous record on any error (no partial commit). -/
def commitResult (r : WRequisition) (res : Except WorkflowError WRequisition) :
    WRequisition :=
  match res with
  | .ok r2 => r2
  | .error _ => r

/-! ## Helper lemmas -/

/-- Pointwise form of the duplicate-merge update: bump the quantity of the
lines matching the key, leave every other line alone. -/
def bumpMatching (itemType : ItemType) (selectedItemId : String) (quantity : Int)
    (it : DraftItem) : DraftItem :=
  if keyMatches itemType selectedItemId it then
    { it with quantity := it.quantity + quantity }
  else it

theorem keyMatches_iff {t : ItemType} {i : String} {it : DraftItem} :
    keyMatches t i it = true ↔ draftKey it = (t, i) := by
  simp [keyMatches, draftKey, Prod.ext_iff, beq_iff_eq, and_comm]

theorem draftKey_bump (t : ItemType) (i : String) (q : Int) (it : DraftItem) :
    draftKey (bumpMatching t i q it) = draftKey it := by
  unfold bumpMatching
  split <;> rfl

theorem keyMatches_bump (t : ItemType) (i : String) (q : Int) (it : DraftItem) :
    keyMatches t i (bumpMatching t i q it) = keyMatches t i it := by
  unfold bumpMatching
  split <;> rfl

/-- The literal `findIndex`-and-`set` update computes the same list as the
structural recursion `addDraftLine`. -/
theorem handleAddItemUpdate_eq_addDraftLine (t : ItemType) (i nm : String) (q : Int)
    (prev : List DraftItem) :
    handleAddItemUpdate t i nm q prev = addDraftLine t i nm q prev := by
  induction prev with
  | nil => rfl
  | cons it rest ih =>
    by_cases h : keyMatches t i it
    · simp [handleAddItemUpdate, addDraftLine, h]
    · cases hf : rest.findIdx? (keyMatches t i) with
      | none =>
          simp only [handleAddItemUpdate, addDraftLine, h, List.findIdx?_cons,
            Bool.false_eq_true, if_false, if_neg, List.findIdx?_succ, hf, Option.map_none] at ih ⊢
          simp_all [handleAddItemUpdate, hf]
      | some j =>
          simp only [handleAddItemUpdate, addDraftLine, h, List.findIdx?_cons,
            Bool.false_eq_true, if_false, if_neg, List.findIdx?_succ, hf, Option.map_some] at ih ⊢
          simp_all [handleAddItemUpdate, hf, List.getElem?_cons_succ]

/-- Under the key-uniqueness invariant, a present key singles out its line:
the matching lines of the draft are exactly `[old]`. -/
theorem filter_key_singleton {t : ItemType} {i : String} {d : List DraftItem}
    (hnd : (d.map draftKey).Nodup) {old : DraftItem}
    (hmem : old ∈ d) (hold : keyMatches t i old = true) :
    d.filter (keyMatches t i) = [old] := by
  induction d with
  | nil => cases hmem
  | cons a rest ih =>
    simp only [List.map_cons, List.nodup_cons] at hnd
    rcases List.mem_cons.mp hmem with rfl | hrest
    · have hnone : ∀ x ∈ rest, keyMatches t i x = false := by
        intro x hx
        rcases hk : keyMatches t i x with _ | _
        · rfl
        · exact absurd (by
            rw [keyMatches_iff.mp hold, ← keyMatches_iff.mp hk]
            exact List.mem_map_of_mem draftKey hx) hnd.1
      rw [List.filter_cons, if_pos hold, List.filter_eq_nil_iff.mpr (by simpa using hnone)]
    · have ha : keyMatches t i a = false := by
        rcases hk : keyMatches t i a with _ | _
        · rfl
        · exact absurd (by
            rw [keyMatches_iff.mp hk, ← keyMatches_iff.mp hold]
            exact List.mem_map_of_mem draftKey hrest) hnd.1
      rw [List.filter_cons, if_neg (by simp [ha]), ih hnd.2 hrest]

/-- With the key present (uniquely), `addDraftLine` is the pointwise bump. -/
theorem addDraftLine_eq_map {t : ItemType} {i : String} {nm : String} {q : Int}
    {d : List DraftItem} (hnd : (d.map draftKey).Nodup) {old : DraftItem}
    (hmem : old ∈ d) (hold : keyMatches t i old = true) :
    addDraftLine t i nm q d = d.map (bumpMatching t i q) := by
  induction d with
  | nil => cases hmem
  | cons a rest ih =>
    simp only [List.map_cons, List.nodup_cons] at hnd
    by_cases h : keyMatches t i a
    · have hnone : ∀ x ∈ rest, keyMatches t i x = false := by
        intro x hx
        rcases hk : keyMatches t i x with _ | _
        · rfl
        · exact absurd (by
            rw [keyMatches_iff.mp h, ← keyMatches_iff.mp hk]
            exact List.mem_map_of_mem draftKey hx) hnd.1
      have hrest : rest.map (bumpMatching t i q) = rest := by
        have hid : ∀ x ∈ rest, bumpMatching t i q x = x := fun x hx => by
          simp [bumpMatching, hnone x hx]
        calc rest.map (bumpMatching t i q) = rest.map id := List.map_congr_left hid
          _ = rest := List.map_id rest
      simp [addDraftLine, h, hrest, bumpMatching]
    · rcases List.mem_cons.mp hmem with rfl | hrest2
      · exact absurd hold (by simp [h])
      · simp [addDraftLine, h, bumpMatching, ih hnd.2 hrest2]

/-- With no line matching the key, `addDraftLine` appends the fresh line. -/
theorem addDraftLine_absent (t : ItemType) (i nm : String) (q : Int) :
    ∀ d : List DraftItem, (∀ it ∈ d, keyMatches t i it = false) →
      addDraftLine t i nm q d = d ++ [⟨t, i, nm, q⟩] := by
  intro d h
  induction d with
  | nil => rfl
  | cons a rest ih =>
      simp only [addDraftLine, h a (List.mem_cons_self a rest), Bool.false_eq_true, if_false,
        List.cons_append, List.cons.injEq, true_and, if_neg]
      exact ih fun x hx => h x (List.mem_cons_of_mem a hx)

/-- The boolean key test composed with the quantity bump is the key test. -/
theorem keyMatches_comp_bump (t : ItemType) (i : String) (q : Int) :
    (keyMatches t i ∘ bumpMatching t i q) = keyMatches t i :=
  funext fun it => keyMatches_bump t i q it

/-- The key-uniqueness invariant assumed by the merge and removal claims
is maintained by the add operation (it holds trivially for the empty
initial draft). -/
theorem nodup_keys_preserved_add (t : ItemType) (i nm : String) (q : Int)
    (d : List DraftItem) (h : (d.map draftKey).Nodup) :
    ((handleAddItemUpdate t i nm q d).map draftKey).Nodup := by
  rw [handleAddItemUpdate_eq_addDraftLine]
  by_cases hex : ∃ old ∈ d, keyMatches t i old = true
  · obtain ⟨old, hmem, hold⟩ := hex
    have hmm : (d.map (bumpMatching t i q)).map draftKey = d.map draftKey := by
      rw [List.map_map]
      exact List.map_congr_left fun x _ => draftKey_bump t i q x
    rw [@addDraftLine_eq_map t i nm q d h old hmem hold, hmm]
    exact h
  · push_neg at hex
    have habs : ∀ it ∈ d, keyMatches t i it = false := by
      intro it hit
      rcases hk : keyMatches t i it with _ | _
      · rfl
      · exact absurd hk (by simpa using hex it hit)
    rw [addDraftLine_absent t i nm q d habs, List.map_append]
    rw [List.nodup_append]
    refine ⟨h, by simp, ?_⟩
    intro k hk1 hk2
    simp only [List.map_cons, List.map_nil, List.mem_singleton] at hk2
    obtain ⟨x, hx, rfl⟩ := List.mem_map.mp hk1
    have : keyMatches t i x = true := keyMatches_iff.mpr (by simpa [draftKey] using hk2)
    simp [habs x hx] at this

/-- The key-uniqueness invariant is maintained by the remove operation. -/
theorem nodup_keys_preserved_remove (id : String) (t : ItemType) (d : List DraftItem)
    (h : (d.map draftKey).Nodup) :
    ((handleRemoveItem id t d).map draftKey).Nodup :=
  h.sublist ((List.filter_sublist d).map draftKey)

/-! ## Claim theorems -/

/-- C1: adding an item whose `(type, itemId)` pair matches an existing
draft line merges into that line (its quantity becomes the old quantity
plus the added quantity), exactly one line carries the pair afterwards, no
line is appended, the key sequence of the draft is unchanged position by
position and every other line is untouched; adding a pair not yet present
appends exactly one new line at the end.  The key-uniqueness hypothesis is
the draft invariant: it holds for the empty initial draft and is preserved
by both draft operations. -/
theorem draft_merge_on_duplicate (t : ItemType) (i nm : String) (q : Int)
    (d : List DraftItem) (hnd : (d.map draftKey).Nodup) :
    (∀ old ∈ d, keyMatches t i old = true →
        (handleAddItemUpdate t i nm q d).length = d.length
        ∧ (handleAddItemUpdate t i nm q d).map draftKey = d.map draftKey
        ∧ d.filter (keyMatches t i) = [old]
        ∧ (handleAddItemUpdate t i nm q d).filter (keyMatches t i)
            = [{ old with quantity := old.quantity + q }]
        ∧ (handleAddItemUpdate t i nm q d).filter (fun it => !(keyMatches t i it))
            = d.filter (fun it => !(keyMatches t i it)))
    ∧ ((∀ it ∈ d, keyMatches t i it = false) →
        handleAddItemUpdate t i nm q d = d ++ [⟨t, i, nm, q⟩]) := by
  rw [handleAddItemUpdate_eq_addDraftLine]
  constructor
  · intro old hmem hold
    have hmap := @addDraftLine_eq_map t i nm q d hnd old hmem hold
    have hsing := filter_key_singleton hnd hmem hold
    rw [hmap]
    refine ⟨by simp, ?_, hsing, ?_, ?_⟩
    · rw [List.map_map]
      exact List.map_congr_left fun x _ => draftKey_bump t i q x
    · rw [List.filter_map, keyMatches_comp_bump, hsing]
      simp [bumpMatching, hold]
    · rw [List.filter_map]
      have hcomp : ((fun it => !(keyMatches t i it)) ∘ bumpMatching t i q)
          = fun it => !(keyMatches t i it) :=
        funext fun it => by simp [Function.comp, keyMatches_bump]
      rw [hcomp]
      have hid : ∀ x ∈ d.filter (fun it => !(keyMatches t i it)),
          bumpMatching t i q x = x := by
        intro x hx
        have := List.of_mem_filter hx
        simp only [Bool.not_eq_true'] at this
        simp [bumpMatching, this]
      calc (d.filter (fun it => !(keyMatches t i it))).map (bumpMatching t i q)
          = (d.filter (fun it => !(keyMatches t i it))).map id := List.map_congr_left hid
        _ = d.filter (fun it => !(keyMatches t i it)) := List.map_id _
  · exact addDraftLine_absent t i nm q d

/-- Witness for C1 at concrete drafts: merging `(medicine, "A", 2)` into a
two-line draft holding `(medicine, "A", 3)` yields a single `"A"` line of
quantity `5`, and adding a fresh pair appends it at the end. -/
theorem draft_merge_on_duplicate_witness :
    (handleAddItemUpdate ItemType.medicine "A" "Par" 2
        [⟨ItemType.medical_device, "B", "Mask", 1⟩, ⟨ItemType.medicine, "A", "Par", 3⟩]).filter
          (keyMatches ItemType.medicine "A")
        = [⟨ItemType.medicine, "A", "Par", 5⟩]
    ∧ handleAddItemUpdate ItemType.medicine "C" "New" 4 [⟨ItemType.medicine, "A", "Par", 3⟩]
        = [⟨ItemType.medicine, "A", "Par", 3⟩, ⟨ItemType.medicine, "C", "New", 4⟩] := by
  constructor
  · have h := (draft_merge_on_duplicate ItemType.medicine "A" "Par" 2
        [⟨ItemType.medical_device, "B", "Mask", 1⟩, ⟨ItemType.medicine, "A", "Par", 3⟩]
        (by decide)).1 ⟨ItemType.medicine, "A", "Par", 3⟩ (by decide) (by decide)
    simpa using h.2.2.2.1
  · have h := (draft_merge_on_duplicate ItemType.medicine "C" "New" 4
        [⟨ItemType.medicine, "A", "Par", 3⟩] (by decide)).2 (by decide)
    simpa using h

/-- C8: `removeItem(type, itemId)` drops the line matching both `type` and
`itemId` when one is present (under the draft key-uniqueness invariant the
length shrinks by exactly one) and is a no-op when none is present; the
surviving lines are exactly the non-matching lines of the previous draft,
kept in their relative order (the result is a sublist of the input). -/
theorem remove_item_spec (id : String) (t : ItemType) (prev : List DraftItem) :
    ((∀ it ∈ prev, keyMatches t id it = false) → handleRemoveItem id t prev = prev)
    ∧ (handleRemoveItem id t prev).Sublist prev
    ∧ (∀ it ∈ prev, keyMatches t id it = false → it ∈ handleRemoveItem id t prev)
    ∧ (∀ it ∈ handleRemoveItem id t prev, it ∈ prev ∧ keyMatches t id it = false)
    ∧ ((prev.map draftKey).Nodup → ∀ old ∈ prev, keyMatches t id old = true →
        (handleRemoveItem id t prev).length + 1 = prev.length) := by
  have hpred : handleRemoveItem id t prev
      = prev.filter (fun it => !(keyMatches t id it)) := rfl
  refine ⟨?_, ?_, ?_, ?_, ?_⟩
  · intro h
    rw [hpred]
    exact List.filter_eq_self.mpr fun a ha => by simp [h a ha]
  · rw [hpred]; exact List.filter_sublist prev
  · intro it hmem hno
    rw [hpred]
    exact List.mem_filter.mpr ⟨hmem, by simp [hno]⟩
  · intro it hmem
    rw [hpred] at hmem
    have h := List.mem_filter.mp hmem
    exact ⟨h.1, by simpa using h.2⟩
  · intro hnd old hmem hold
    have hsing := filter_key_singleton hnd hmem hold
    have hperm := List.filter_append_perm (keyMatches t id) prev
    have hlen := hperm.length_eq
    rw [List.length_append, hsing] at hlen
    simp only [List.length_singleton] at hlen
    rw [hpred]
    omega

/-- Witness for C8: removing `(medicine, "A")` from a two-line draft keeps
only the other line; removing an absent pair changes nothing. -/
theorem remove_item_spec_witness :
    handleRemoveItem "A" ItemType.medicine
        [⟨ItemType.medical_device, "B", "Mask", 1⟩, ⟨ItemType.medicine, "A", "Par", 3⟩]
      = [⟨ItemType.medical_device, "B", "Mask", 1⟩]
    ∧ handleRemoveItem "Z" ItemType.medicine
        [⟨ItemType.medical_device, "B", "Mask", 1⟩, ⟨ItemType.medicine, "A", "Par", 3⟩]
      = [⟨ItemType.medical_device, "B", "Mask", 1⟩, ⟨ItemType.medicine, "A", "Par", 3⟩] := by
  constructor
  · decide
  · exact (remove_item_spec "Z" ItemType.medicine
      [⟨ItemType.medical_device, "B", "Mask", 1⟩, ⟨ItemType.medicine, "A", "Par", 3⟩]).1
      (by decide)

/-- C5: `addItem` fails with a `ValidationError` when the item id is empty,
when the quantity is not positive, or when the id does not resolve against
the catalog of the selected type; in every failure case the draft list is
left unchanged. -/
theorem add_item_validation (t : ItemType) (sid : String) (q : Int)
    (cat : List CatalogItem) (d : List DraftItem) :
    (sid = "" →
        handleAddItem t sid q cat d = .error .noItemSelected
        ∧ draftAfter d (handleAddItem t sid q cat d) = d)
    ∧ (q ≤ 0 →
        (∃ e, handleAddItem t sid q cat d = .error e)
        ∧ draftAfter d (handleAddItem t sid q cat d) = d)
    ∧ (cat.find? (fun item => item.id == sid) = none →
        (∃ e, handleAddItem t sid q cat d = .error e)
        ∧ draftAfter d (handleAddItem t sid q cat d) = d) := by
  refine ⟨?_, ?_, ?_⟩
  · intro h
    simp [handleAddItem, h, draftAfter]
  · intro hq
    by_cases hs : sid = ""
    · exact ⟨⟨.noItemSelected, by simp [handleAddItem, hs]⟩, by simp [handleAddItem, hs, draftAfter]⟩
    · exact ⟨⟨.invalidQuantity, by simp [handleAddItem, hs, hq]⟩,
        by simp [handleAddItem, hs, hq, draftAfter]⟩
  · intro hfind
    by_cases hs : sid = ""
    · exact ⟨⟨.noItemSelected, by simp [handleAddItem, hs]⟩, by simp [handleAddItem, hs, draftAfter]⟩
    · by_cases hq : q ≤ 0
      · exact ⟨⟨.invalidQuantity, by simp [handleAddItem, hs, hq]⟩,
          by simp [handleAddItem, hs, hq, draftAfter]⟩
      · exact ⟨⟨.itemNotFound, by simp [handleAddItem, hs, hq, hfind]⟩,
          by simp [handleAddItem, hs, hq, hfind, draftAfter]⟩

/-- Witness for C5: empty id, zero quantity and an unresolvable id all fail
and leave the concrete draft unchanged. -/
theorem add_item_validation_witness :
    handleAddItem ItemType.medicine "" 3 [⟨"A", "Par", 7⟩] [⟨ItemType.medicine, "A", "Par", 1⟩]
        = .error .noItemSelected
    ∧ (∃ e, handleAddItem ItemType.medicine "A" 0 [⟨"A", "Par", 7⟩]
        [⟨ItemType.medicine, "A", "Par", 1⟩] = .error e)
    ∧ (∃ e, handleAddItem ItemType.medicine "Z" 3 [⟨"A", "Par", 7⟩]
        [⟨ItemType.medicine, "A", "Par", 1⟩] = .error e)
    ∧ draftAfter [⟨ItemType.medicine, "A", "Par", 1⟩]
        (handleAddItem ItemType.medicine "Z" 3 [⟨"A", "Par", 7⟩]
          [⟨ItemType.medicine, "A", "Par", 1⟩])
        = [⟨ItemType.medicine, "A", "Par", 1⟩] := by
  refine ⟨?_, ?_, ?_, ?_⟩
  · exact ((add_item_validation ItemType.medicine "" 3 [⟨"A", "Par", 7⟩]
      [⟨ItemType.medicine, "A", "Par", 1⟩]).1 rfl).1
  · exact ((add_item_validation ItemType.medicine "A" 0 [⟨"A", "Par", 7⟩]
      [⟨ItemType.medicine, "A", "Par", 1⟩]).2.1 (by decide)).1
  · exact ((add_item_validation ItemType.medicine "Z" 3 [⟨"A", "Par", 7⟩]
      [⟨ItemType.medicine, "A", "Par", 1⟩]).2.2 (by decide)).1
  · exact ((add_item_validation ItemType.medicine "Z" 3 [⟨"A", "Par", 7⟩]
      [⟨ItemType.medicine, "A", "Par", 1⟩]).2.2 (by decide)).2

/-- C6: building the submission fails with a `ValidationError` on an empty
draft; otherwise the payload is the draft lines mapped to
`{type, id, quantity}`, and the comment is trimmed, with an empty or
whitespace-only comment omitted rather than sent as an empty string. -/
theorem create_requisition_spec (comment : String) (d : List DraftItem) :
    (d = [] → handleCreateRequisition comment d = .error .emptyDraft)
    ∧ (d ≠ [] → ∃ p, handleCreateRequisition comment d = .ok p
        ∧ p.items = d.map (fun it => ⟨it.type, it.id, it.quantity⟩)
        ∧ (jsTrim comment = "" → p.comment = none)
        ∧ (jsTrim comment ≠ "" → p.comment = some (jsTrim comment))) := by
  constructor
  · intro h
    simp [handleCreateRequisition, h]
  · intro h
    have hlen : ¬ d.length = 0 := by simpa using h
    refine ⟨{ comment := if jsTrim comment = "" then none else some (jsTrim comment)
              items := d.map (fun it => ⟨it.type, it.id, it.quantity⟩) }, ?_, rfl, ?_, ?_⟩
    · simp [handleCreateRequisition, hlen]
    · intro hc; simp [hc]
    · intro hc; simp [hc]

/-- Witness for C6: an empty draft is rejected; a one-line draft with a
whitespace-only comment produces the mapped items and no comment field. -/
theorem create_requisition_spec_witness :
    handleCreateRequisition "note" [] = .error .emptyDraft
    ∧ (∃ p, handleCreateRequisition "   " [⟨ItemType.medicine, "A", "Par", 3⟩] = .ok p
        ∧ p.items = [⟨ItemType.medicine, "A", 3⟩]
        ∧ p.comment = none) := by
  constructor
  · exact (create_requisition_spec "note" []).1 rfl
  · obtain ⟨p, hp, hitems, hnone, _⟩ :=
      (create_requisition_spec "   " [⟨ItemType.medicine, "A", "Par", 3⟩]).2 (by decide)
    exact ⟨p, hp, by simpa using hitems, hnone (by decide)⟩

/-- C7 counterexample: the specification's status vocabulary contains
`accepted`, but the requisition status union of the source
(`'pending' | 'approved' | 'rejected'` in both requisition pages) does
not: the claimed four-value range is not the code's range. -/
theorem requisition_status_counterexample :
    "accepted" ∈ specStatusStrings
    ∧ "accepted" ∉ allRequisitionStatuses.map statusToString
    ∧ specStatusStrings ≠ allRequisitionStatuses.map statusToString := by
  decide

/-- C7 amended: a requisition's status ranges over exactly the three
values `pending`, `approved`, `rejected`; every requisition held by the
program has its status drawn from this set (`accepted` is a shipment
status, not a requisition status, in this code base). -/
theorem requisition_status_three_valued :
    allRequisitionStatuses.map statusToString = ["pending", "approved", "rejected"]
    ∧ (∀ s : RequisitionStatus, s ∈ allRequisitionStatuses)
    ∧ (∀ r : Requisition, statusToString r.status ∈ ["pending", "approved", "rejected"]) := by
  refine ⟨by decide, fun s => ?_, fun r => ?_⟩
  · cases s <;> decide
  · cases h : r.status <;> simp [statusToString]

/-- C9 counterexample: with a finite maximum of `0` (an out-of-stock item),
the blur handler commits `0`, not a value of at least `1`: the clamp to
`1` happens before `Math.min(n, max)` is applied. -/
theorem qty_commit_counterexample :
    onQtyBlur "5" (some 0) = 0 ∧ ¬ (1 ≤ onQtyBlur "5" (some 0)) := by
  decide

/-- C9 amended: the committed value is `min(clamp(parse(text)), max)`: it
is at least `1` whenever no maximum is supplied or the maximum is at least
`1` (non-numeric, empty and sub-1 input parse to the clamp value `1`);
with a finite maximum it never exceeds the maximum, and when the maximum
is below `1` the maximum itself is committed; character input containing a
non-digit is rejected without changing the field. -/
theorem qty_input_commit_clamped (s : String) :
    1 ≤ onQtyBlur s none
    ∧ (∀ mx : Int, onQtyBlur s (some mx) ≤ mx)
    ∧ (∀ mx : Int, 1 ≤ mx → 1 ≤ onQtyBlur s (some mx))
    ∧ (∀ mx : Int, mx < 1 → onQtyBlur s (some mx) = mx)
    ∧ (∀ v told : String, v.toList.all Char.isDigit = false → onQtyChange v told = told) := by
  have hclamp : ∀ t : String, 1 ≤ (match jsParseInt10 t with
      | none => 1
      | some m => if m < 1 then 1 else m : Int) := by
    intro t
    cases jsParseInt10 t with
    | none => simp
    | some m =>
        simp only []
        split <;> omega
  refine ⟨?_, ?_, ?_, ?_, ?_⟩
  · simpa [onQtyBlur] using hclamp (if s = "" then "0" else s)
  · intro mx
    simp only [onQtyBlur]
    exact min_le_right _ _
  · intro mx hmx
    simp only [onQtyBlur]
    exact le_min (hclamp _) hmx
  · intro mx hmx
    simp only [onQtyBlur]
    exact min_eq_right (le_trans (by omega) (hclamp _))
  · intro v told hv
    simp only [onQtyChange, hv, Bool.false_eq_true, if_false]

/-- Witness for C9 (amended): a parse failure commits `1`, a maximum of `5`
caps an input of `7`, and typing `"1a"` into a field holding `"3"` leaves
the field at `"3"`. -/
theorem qty_input_commit_clamped_witness :
    1 ≤ onQtyBlur "abc" none
    ∧ onQtyBlur "7" (some 5) ≤ 5
    ∧ onQtyChange "1a" "3" = "3" := by
  refine ⟨(qty_input_commit_clamped "abc").1, (qty_input_commit_clamped "7").2.1 5, ?_⟩
  exact (qty_input_commit_clamped "").2.2.2.2 "1a" "3" (by decide)

theorem shipLe_trans (o : SortOrder) : ∀ a b c : Shipment,
    shipLe o a b = true → shipLe o b c = true → shipLe o a c = true := by
  intro a b c h1 h2
  cases o <;> simp [shipLe] at h1 h2 ⊢ <;> omega

theorem shipLe_total (o : SortOrder) : ∀ a b : Shipment,
    (shipLe o a b || shipLe o b a) = true := by
  intro a b
  cases o <;> simp [shipLe] <;> omega

/-- C10: the rendered shipment list is a pure derived view: under filter
`accepted` (resp. `declined`) it is a permutation of — and contains
exactly — the fetched shipments satisfying `isAccepted` (resp.
`isDeclined`); it is ordered by shipment date, non-increasing for sort
order `new` and non-decreasing for `old`.  The underlying list cannot be
mutated: `viewShipments` is a function of the fetched list (the source
sorts a spread copy `[...shipments]`). -/
theorem view_shipments_spec (s : List Shipment) (o : SortOrder) :
    (viewShipments s o .accepted).Perm (s.filter isAccepted)
    ∧ (viewShipments s o .declined).Perm (s.filter isDeclined)
    ∧ (viewShipments s o .all).Perm s
    ∧ (∀ x : Shipment, x ∈ viewShipments s o .accepted ↔ x ∈ s ∧ isAccepted x = true)
    ∧ (∀ x : Shipment, x ∈ viewShipments s o .declined ↔ x ∈ s ∧ isDeclined x = true)
    ∧ (∀ f : StatusFilter, (viewShipments s .new f).Pairwise fun a b => getTime b ≤ getTime a)
    ∧ (∀ f : StatusFilter, (viewShipments s .old f).Pairwise fun a b => getTime a ≤ getTime b) := by
  refine ⟨List.mergeSort_perm _ _, List.mergeSort_perm _ _, List.mergeSort_perm _ _,
    ?_, ?_, ?_, ?_⟩
  · intro x
    rw [show viewShipments s o .accepted = (s.filter isAccepted).mergeSort (shipLe o) from rfl,
      (List.mergeSort_perm _ _).mem_iff, List.mem_filter]
  · intro x
    rw [show viewShipments s o .declined = (s.filter isDeclined).mergeSort (shipLe o) from rfl,
      (List.mergeSort_perm _ _).mem_iff, List.mem_filter]
  · intro f
    have h := fun l => List.sorted_mergeSort (shipLe_trans .new) (shipLe_total .new) l
    cases f <;>
      exact (h _).imp fun hab => by simpa [shipLe] using hab
  · intro f
    have h := fun l => List.sorted_mergeSort (shipLe_trans .old) (shipLe_total .old) l
    cases f <;>
      exact (h _).imp fun hab => by simpa [shipLe] using hab

/-- A concrete accepted shipment used for the C10 witness. -/
def shipEx : Shipment :=
  { id := "s1"
    status := "accepted"
    accepted := false
    is_accepted := false
    declined := false
    rejected := false
    is_declined := false
    decline_reason := none
    rejection_reason := none
    date := some 100
    created_at := none
    createdAt := none
    created := none }

/-- Witness for C10: a singleton accepted shipment survives the accepted
filter and the view is a permutation of the fetched list. -/
theorem view_shipments_spec_witness :
    shipEx ∈ viewShipments [shipEx] SortOrder.new StatusFilter.accepted
    ∧ (viewShipments [shipEx] SortOrder.old StatusFilter.all).Perm [shipEx] := by
  constructor
  · exact ((view_shipments_spec [shipEx] SortOrder.new).2.2.2.1 shipEx).mpr
      ⟨by decide, by decide⟩
  · exact (view_shipments_spec [shipEx] SortOrder.old).2.2.1

theorem int_sum_nonneg (l : List Int) (h : ∀ x ∈ l, 0 ≤ x) : 0 ≤ l.sum := by
  induction l with
  | nil => simp
  | cons a rest ih =>
      simp only [List.sum_cons]
      have h1 := h a (List.mem_cons_self a rest)
      have h2 := ih fun x hx => h x (List.mem_cons_of_mem a hx)
      omega

theorem int_sum_eq_zero_iff (l : List Int) (h : ∀ x ∈ l, 0 ≤ x) :
    l.sum = 0 ↔ ∀ x ∈ l, x = 0 := by
  induction l with
  | nil => simp
  | cons a rest ih =>
      have ha := h a (List.mem_cons_self a rest)
      have hrest := fun x hx => h x (List.mem_cons_of_mem a hx)
      have hs := int_sum_nonneg rest hrest
      simp only [List.sum_cons, List.mem_cons]
      constructor
      · intro h0
        have hsum : rest.sum = 0 := by omega
        have hall := (ih hrest).mp hsum
        intro x hx
        rcases hx with rfl | hx
        · omega
        · exact hall x hx
      · intro hall
        have ha0 := hall a (Or.inl rfl)
        have : rest.sum = 0 := (ih hrest).mpr fun x hx => hall x (Or.inr hx)
        omega

/-- C4: `computeAvailability` returns one entry per requisition item, each
entry carrying the snapshot lookup (absent items count as stock `0`) and
`shortage = max(0, requested_qty - available_qty)`, which is never
negative; `shortage_total` is the sum of the per-line shortages and
`can_fulfill` holds exactly when the total is `0`, equivalently when every
line has `requested_qty ≤ available_qty`. -/
theorem compute_availability_spec (r : WRequisition) (snap : CatalogSnapshot) :
    (computeAvailability r snap).length = r.items.length
    ∧ (computeAvailability r snap).map (fun x => (x.item_type, x.item_id, x.requested_qty))
        = r.items.map (fun it => (it.item_type, it.item_id, it.quantity))
    ∧ (∀ x ∈ computeAvailability r snap,
        x.available_qty = lookupStock snap x.item_type x.item_id
        ∧ x.shortage = max 0 (x.requested_qty - x.available_qty)
        ∧ 0 ≤ x.shortage)
    ∧ (∀ (t : ItemType) (i : String),
        snap.find? (fun e => e.1 == t && e.2.1 == i) = none → lookupStock snap t i = 0)
    ∧ 0 ≤ shortageTotal (computeAvailability r snap)
    ∧ (canFulfill (computeAvailability r snap) = true
        ↔ shortageTotal (computeAvailability r snap) = 0)
    ∧ (canFulfill (computeAvailability r snap) = true
        ↔ ∀ x ∈ computeAvailability r snap, x.requested_qty ≤ x.available_qty) := by
  have hnn : ∀ y ∈ (computeAvailability r snap).map (fun x => x.shortage), 0 ≤ y := by
    intro y hy
    obtain ⟨x, hx, rfl⟩ := List.mem_map.mp hy
    obtain ⟨it, hit, rfl⟩ := List.mem_map.mp hx
    exact le_max_left 0 _
  have hentry : ∀ x ∈ computeAvailability r snap,
      x.available_qty = lookupStock snap x.item_type x.item_id
      ∧ x.shortage = max 0 (x.requested_qty - x.available_qty)
      ∧ 0 ≤ x.shortage := by
    intro x hx
    obtain ⟨it, hit, rfl⟩ := List.mem_map.mp hx
    exact ⟨rfl, rfl, le_max_left 0 _⟩
  refine ⟨by simp [computeAvailability], ?_, hentry, ?_, ?_, ?_, ?_⟩
  · rw [computeAvailability, List.map_map]
    rfl
  · intro t i h
    simp [lookupStock, h]
  · exact int_sum_nonneg _ hnn
  · simp [canFulfill]
  · rw [show canFulfill (computeAvailability r snap)
        = (shortageTotal (computeAvailability r snap) == 0) from rfl, beq_iff_eq,
      shortageTotal, int_sum_eq_zero_iff _ hnn]
    constructor
    · intro hall x hx
      have h0 := hall x.shortage (List.mem_map_of_mem _ hx)
      have := (hentry x hx).2.1
      have hmax : max 0 (x.requested_qty - x.available_qty) = 0 := by rw [← this]; exact h0
      have := max_eq_left_iff.mp hmax
      omega
    · intro hall y hy
      obtain ⟨x, hx, rfl⟩ := List.mem_map.mp hy
      have hle := hall x hx
      have := (hentry x hx).2.1
      rw [this, max_eq_left_iff]
      omega

/-- A concrete pending requisition (the §8 scenario: ten paracetamol). -/
def pendingReqEx : WRequisition :=
  { id := "r1"
    branch_id := "b1"
    status := .pending
    items := [⟨.medicine, "paracetamol", "Paracetamol", 10⟩]
    comment := none
    reject_reason := none
    processed_by := none
    processed_at := none
    shipment_id := none }

/-- A snapshot with only four paracetamol on hand. -/
def lowStockEx : CatalogSnapshot := [(.medicine, "paracetamol", 4)]

/-- Witness for C4 at the §8 scenario: the shortage total is non-negative
(via the theorem) and concretely the requisition cannot be fulfilled with
four on hand against ten requested. -/
theorem compute_availability_spec_witness :
    0 ≤ shortageTotal (computeAvailability pendingReqEx lowStockEx)
    ∧ canFulfill (computeAvailability pendingReqEx lowStockEx) = false
    ∧ shortageTotal (computeAvailability pendingReqEx lowStockEx) = 6 := by
  refine ⟨(compute_availability_spec pendingReqEx lowStockEx).2.2.2.2.1, ?_, ?_⟩
  · decide
  · decide

/-- C2: once `processed_at` is set (status `approved`, `accepted` or
`rejected`), every further lifecycle transition — `approve`, `reject`,
`acceptAndShip` — fails with `InvalidStateError` and commits no change to
the stored record; in the UI the approve / reject actions are not even
rendered for a non-pending requisition. -/
theorem processed_requisition_terminal
    (r : WRequisition) (a : String) (reason : Option String) (snap : CatalogSnapshot)
    (ship : Except Unit String) (now : Int)
    (_hp : r.processed_at.isSome = true)
    (hs : r.status = .approved ∨ r.status = .accepted ∨ r.status = .rejected) :
    (approve r a now = .error .invalidStateError
      ∧ commitResult r (approve r a now) = r)
    ∧ (reject r a reason now = .error .invalidStateError
      ∧ commitResult r (reject r a reason now) = r)
    ∧ (acceptAndShip r a snap ship now = .error .invalidStateError
      ∧ commitResult r (acceptAndShip r a snap ship now) = r)
    ∧ (∀ req : Requisition, req.status ≠ .pending → showsPendingActions req = false) := by
  have hnp : r.status ≠ .pending := by
    rcases hs with h | h | h <;> simp [h]
  have happr : approve r a now = .error .invalidStateError := by simp [approve, hnp]
  have hrej : reject r a reason now = .error .invalidStateError := by simp [reject, hnp]
  have hacc : acceptAndShip r a snap ship now = .error .invalidStateError := by
    simp [acceptAndShip, hnp]
  refine ⟨⟨happr, by rw [happr]; rfl⟩, ⟨hrej, by rw [hrej]; rfl⟩,
    ⟨hacc, by rw [hacc]; rfl⟩, ?_⟩
  intro req hreq
  cases h : req.status <;> simp_all [showsPendingActions]

/-- An already-processed requisition used for the C2 witness. -/
def processedReqEx : WRequisition :=
  { id := "r2"
    branch_id := "b1"
    status := .approved
    items := [⟨.medicine, "paracetamol", "Paracetamol", 10⟩]
    comment := none
    reject_reason := none
    processed_by := some "admin"
    processed_at := some 10
    shipment_id := none }

/-- Witness for C2: a second approve and a later acceptAndShip on an
already-approved requisition both fail with `InvalidStateError` and leave
the record unchanged. -/
theorem processed_requisition_terminal_witness :
    approve processedReqEx "admin2" 99 = .error .invalidStateError
    ∧ commitResult processedReqEx (approve processedReqEx "admin2" 99) = processedReqEx
    ∧ acceptAndShip processedReqEx "admin2" lowStockEx (.ok "ship1") 99
        = .error .invalidStateError := by
  have h := processed_requisition_terminal processedReqEx "admin2" none lowStockEx
    (.ok "ship1") 99 (by decide) (by decide)
  exact ⟨h.1.1, h.1.2, h.2.2.1.1⟩

/-- Every failure path of `acceptAndShip` returns an error. -/
theorem acceptAndShip_fail_is_error (r : WRequisition) (a : String)
    (snap : CatalogSnapshot) (now : Int) (e : Unit) :
    ∃ err, acceptAndShip r a snap (.error e) now = .error err := by
  by_cases hst : r.status ≠ .pending
  · exact ⟨.invalidStateError, by simp [acceptAndShip, hst]⟩
  · by_cases hcf : canFulfill (computeAvailability r snap)
    · exact ⟨.shipmentCreationError, by simp [acceptAndShip, hst, hcf]⟩
    · exact ⟨.insufficientStockError, by simp [acceptAndShip, hst, hcf]⟩

/-- C3: if the external Shipment Service call fails, `acceptAndShip`
returns an error and commits nothing: the stored requisition keeps every
field (in particular a pending requisition stays pending with no
`shipment_id` and no processed fields); and a success is only possible
when the shipment was actually created, in which case the status flips to
`accepted` with the new shipment id recorded — both or neither. -/
theorem accept_and_ship_no_partial_state
    (r : WRequisition) (a : String) (snap : CatalogSnapshot) (now : Int) :
    (∀ e : Unit, ∃ err, acceptAndShip r a snap (.error e) now = .error err)
    ∧ (∀ e : Unit, commitResult r (acceptAndShip r a snap (.error e) now) = r)
    ∧ (∀ (res : Except Unit String) (r2 : WRequisition),
        acceptAndShip r a snap res now = .ok r2 →
          ∃ sid, res = .ok sid ∧ r2.status = .accepted ∧ r2.shipment_id = some sid
            ∧ r2.processed_by = some a ∧ r2.processed_at = some now
            ∧ r2.items = r.items) := by
  refine ⟨acceptAndShip_fail_is_error r a snap now, ?_, ?_⟩
  · intro e
    obtain ⟨err, herr⟩ := acceptAndShip_fail_is_error r a snap now e
    rw [herr]
    rfl
  · intro res r2 h
    by_cases hst : r.status ≠ .pending
    · simp [acceptAndShip, hst] at h
    · by_cases hcf : canFulfill (computeAvailability r snap)
      · cases res with
        | error e => simp [acceptAndShip, hst, hcf] at h
        | ok sid =>
            simp only [acceptAndShip] at h
            rw [if_neg hst, if_neg (fun hc => hc hcf)] at h
            have h2 := Except.ok.inj h
            refine ⟨sid, rfl, ?_, ?_, ?_, ?_, ?_⟩ <;> rw [← h2]
      · simp [acceptAndShip, hst, hcf] at h

/-- A snapshot with enough paracetamol for the pending requisition. -/
def fullStockEx : CatalogSnapshot := [(.medicine, "paracetamol", 10)]

/-- Witness for C3: a failed shipment call on the fulfillable pending
requisition commits nothing. -/
theorem accept_and_ship_no_partial_state_witness :
    commitResult pendingReqEx
        (acceptAndShip pendingReqEx "admin" fullStockEx (.error ()) 50) = pendingReqEx :=
  (accept_and_ship_no_partial_state pendingReqEx "admin" fullStockEx 50).2.1 ()
